import Mathlib

/-!
Shallow embedding of the meeting check-in service, translated from
`src/main.py` (routes `generate_qr_token` and `check_in`) and
`src/sheets_manager.py` (`SheetsManager.add_qr_token`,
`SheetsManager.consume_qr_token`, `SheetsManager.append_row`,
`SheetsManager.find_record_by_id`, `SheetsManager.get_all_records`).

Modelling decisions, all taken from the source:
* Each Google Sheets worksheet is modelled as a Lean list of records whose
  fields are the worksheet's header columns (`WORKSHEET_DEFINITIONS` in
  sheets_manager.py).  Header rows themselves are not modelled; the service
  is modelled in its connected state (`is_connected = True`), since a
  disconnected manager makes every route fail with HTTP 503 before the
  handler body runs (`get_sheets_manager`).
* `gspread` cell lookups (`sheet.find(value, in_column=1)`) become
  `List.find?` on the id field; `sheet.delete_rows(cell.row)` of the found
  row becomes `List.eraseP` of the first matching record;
  `sheet.append_row` becomes appending at the end of the list.
* Wall-clock reads are passed in explicitly.  `check_in` reads the clock
  three times (`time.time()` for the expiry comparison,
  `datetime.datetime.now(timezone.utc).isoformat()` for the stored
  check-in time, `datetime.datetime.now().strftime("%Y-%m-%d %H:%M:%S")`
  for the response), so the `Clock` structure carries one field per read.
  `uuid.uuid4()` results are likewise inputs.
* Store failures are injected through Boolean fault flags: `consumeErr`
  models an exception raised anywhere inside the `try` block of
  `consume_qr_token` (its `except Exception` handler returns `None`), and
  `appendErr` models `sheet.append_row` raising (re-raised by
  `SheetsManager.append_row`).  An exception that escapes the route handler
  surfaces to the HTTP caller as a 500 response; the outcome constructor
  `storageError` stands for that.
* Timestamps compared against `expires_at` are integers, matching
  `int(time.time() + QR_CODE_EXP_SECONDS)` stored at issuance.
-/

/-- Row of the `Participants` worksheet
(headers `['id', 'name', 'email', 'phone_number', 'organization', 'login_hash']`). -/
structure Participant where
  id : String
  name : String
  email : String
  phone_number : String
  organization : String
  login_hash : String
deriving DecidableEq

/-- Row of the `Agenda_Items` worksheet (headers `['id', 'event_id',
'agenda_title', 'start_time', 'end_time', 'location', 'checkin_window_minutes']`). -/
structure AgendaItem where
  id : String
  event_id : String
  agenda_title : String
  start_time : String
  end_time : String
  location : String
  checkin_window_minutes : String
deriving DecidableEq

/-- Row of the `Attendance_Log` worksheet (headers `['id', 'participant_id',
'agenda_item_id', 'checkin_time', 'checkin_method', 'scanner_device_id',
'is_valid']`).  `check_in` writes the string `"TRUE"` into `is_valid`. -/
structure AttendanceRecord where
  id : String
  participant_id : String
  agenda_item_id : String
  checkin_time : String
  checkin_method : String
  scanner_device_id : String
  is_valid : String
deriving DecidableEq

/-- Row of the `Qr_Tokens` worksheet (headers `['token_uuid',
'participant_id', 'agenda_item_id', 'device_id', 'expires_at']`). -/
structure QrToken where
  token_uuid : String
  participant_id : String
  agenda_item_id : String
  device_id : String
  expires_at : Int
deriving DecidableEq

/-- The worksheets of the spreadsheet that the two attendance routes touch. -/
structure SheetsState where
  participants : List Participant
  agendaItems : List AgendaItem
  attendanceLog : List AttendanceRecord
  qrTokens : List QrToken
deriving DecidableEq

/-- Body of `POST /api/v1/attendance/token` (`TokenRequest` in main.py). -/
structure TokenRequest where
  participant_id : String
  agenda_item_id : String
  device_id : String
deriving DecidableEq

/-- Body of `POST /api/v1/attendance/check-in` (`CheckInRequest` in main.py). -/
structure CheckInRequest where
  qr_code_token : String
  agenda_item_id : String
  scanner_device_id : String
deriving DecidableEq

/-- The clock and RNG reads performed by one `check_in` call, in source
order: `time.time()` at the expiry comparison (main.py line 250), the UUID
for the new log row (line 276), `datetime.datetime.now(timezone.utc).isoformat()`
stored into the ledger (line 273), and `datetime.datetime.now().strftime(...)`
returned in the response (line 294).  The last two are separate samples with
different formats. -/
structure Clock where
  now : Int
  new_record_id : String
  utc_now_iso : String
  local_now_str : String
deriving DecidableEq

/-- Fault injection for the backing store during one `check_in` call:
`consumeErr` – some step of `consume_qr_token`'s try block raises;
`appendErr` – `sheet.append_row` on `Attendance_Log` raises. -/
structure StoreFaults where
  consumeErr : Bool
  appendErr : Bool
deriving DecidableEq

/-- No injected store faults. -/
def noFaults : StoreFaults := { consumeErr := false, appendErr := false }

/-- Outcome of `POST /api/v1/attendance/token` as seen by the HTTP caller. -/
inductive TokenOutcome where
  /-- HTTP 404, detail `參與者 ID 無效` (participant id not found). -/
  | participantNotFound
  /-- HTTP 404, detail `議程 ID 無效` (agenda id not found). -/
  | agendaNotFound
  /-- Uncaught exception from `add_qr_token` – HTTP 500. -/
  | storeFailure
  /-- HTTP 200: `{qr_code_token, expires_in}`. -/
  | issued (qr_code_token : String) (expires_in : Int)
deriving DecidableEq

/-- Outcome of `POST /api/v1/attendance/check-in` as seen by the HTTP
caller.  The first five failures are the HTTP 400 responses of main.py
lines 247, 251, 261 and 270; `storageError` is an exception escaping the
handler (HTTP 500). -/
inductive CheckInOutcome where
  /-- `報到失敗：QR Code 無效或已使用。` -/
  | invalidOrUsedToken
  /-- `報到失敗：QR Code 已過期。` -/
  | expired
  /-- `報到失敗：議程 ID 不匹配。` -/
  | agendaMismatch
  /-- `報到失敗：該學員已報到過。` -/
  | duplicateCheckIn
  /-- Uncaught store exception after token consumption – HTTP 500. -/
  | storageError
  /-- HTTP 200: participant name, participant id and the response
  `checkin_time` string. -/
  | succeeded (participant_name : String) (participant_id : String)
      (checkin_time : String)
deriving DecidableEq

/-- `QR_CODE_EXP_SECONDS = 15` (main.py line 31). -/
def QR_CODE_EXP_SECONDS : Int := 15

/-- `SheetsManager.consume_qr_token` (sheets_manager.py lines 159-186):
find the first `Qr_Tokens` row whose first column equals the uuid, read it,
delete that row, and return the row; if the uuid is absent
(`CellNotFound`) return `None` and change nothing.  `err = true` models an
exception raised anywhere in the try block, swallowed by the final
`except Exception` handler, which also returns `None`. -/
def consume_qr_token (s : SheetsState) (qr_uuid_token : String) (err : Bool) :
    Option QrToken × SheetsState :=
  if err then (none, s)
  else
    match s.qrTokens.find? (fun r => r.token_uuid == qr_uuid_token) with
    | none => (none, s)
    | some tk =>
        (some tk,
         { s with qrTokens := s.qrTokens.eraseP (fun r => r.token_uuid == qr_uuid_token) })

/-- The duplicate scan of `check_in` (main.py lines 264-268): true iff some
`Attendance_Log` record has the given participant id and agenda id.  The
`is_valid` column is not consulted. -/
def is_already_checked_in (log : List AttendanceRecord) (p_id a_id : String) : Bool :=
  log.any (fun r => r.participant_id == p_id && r.agenda_item_id == a_id)

/-- Route `generate_qr_token` (main.py lines 193-231): look up the
participant (404 if absent), look up the agenda item (404 if absent),
build the token with `expires_at = int(time.time()) + QR_CODE_EXP_SECONDS`
and append it to `Qr_Tokens` via `add_qr_token`, then return the uuid and
`expires_in`.  `appendErr` models `add_qr_token` raising, which escapes the
handler with nothing persisted. -/
def generate_qr_token (s : SheetsState) (req : TokenRequest) (now : Int)
    (new_uuid : String) (appendErr : Bool) : TokenOutcome × SheetsState :=
  match s.participants.find? (fun p => p.id == req.participant_id) with
  | none => (.participantNotFound, s)
  | some _ =>
    match s.agendaItems.find? (fun a => a.id == req.agenda_item_id) with
    | none => (.agendaNotFound, s)
    | some _ =>
      if appendErr then (.storeFailure, s)
      else
        let expires_at := now + QR_CODE_EXP_SECONDS
        let tok : QrToken :=
          { token_uuid := new_uuid
            participant_id := req.participant_id
            agenda_item_id := req.agenda_item_id
            device_id := req.device_id
            expires_at := expires_at }
        (.issued new_uuid QR_CODE_EXP_SECONDS,
         { s with qrTokens := s.qrTokens ++ [tok] })

/-- Route `check_in` (main.py lines 235-296), step for step:
1. `consume_qr_token`; `None` → 400 invalid-or-used (line 247);
2. `time.time() > token_data['expires_at']` → 400 expired (line 251);
3. token agenda id `!=` requested agenda id → 400 mismatch (line 261);
4. scan of `Attendance_Log` → 400 duplicate (line 270);
5. append the log row (`id, p_id, request.agenda_item_id, utc time,
   "QR_CODE", scanner_device_id, "TRUE"`); a raise escapes as HTTP 500;
6. look up the participant for the display name and answer with a freshly
   sampled local-time string.  `find_record_by_id` returning `None` makes
   `participant_data.get` raise `AttributeError`, again HTTP 500.
The `log_data` row (lines 275-283) is built by `checkin_log_data` below:
`[str(uuid.uuid4()), p_id, request.agenda_item_id, checkin_time_utc,
"QR_CODE", request.scanner_device_id, "TRUE"]`.  The display-name lookup
happens after the append, but the append does not touch `Participants`, so
it is equivalently performed on `s1.participants`. -/
def checkin_log_data (token_data : QrToken) (req : CheckInRequest)
    (clock : Clock) : AttendanceRecord :=
  { id := clock.new_record_id
    participant_id := token_data.participant_id
    agenda_item_id := req.agenda_item_id
    checkin_time := clock.utc_now_iso
    checkin_method := "QR_CODE"
    scanner_device_id := req.scanner_device_id
    is_valid := "TRUE" }

def check_in (s : SheetsState) (req : CheckInRequest) (clock : Clock)
    (faults : StoreFaults) : CheckInOutcome × SheetsState :=
  match consume_qr_token s req.qr_code_token faults.consumeErr with
  | (none, s1) => (.invalidOrUsedToken, s1)
  | (some token_data, s1) =>
    if clock.now > token_data.expires_at then (.expired, s1)
    else if token_data.agenda_item_id != req.agenda_item_id then (.agendaMismatch, s1)
    else if is_already_checked_in s1.attendanceLog token_data.participant_id
        token_data.agenda_item_id then (.duplicateCheckIn, s1)
    else if faults.appendErr then (.storageError, s1)
    else
      match s1.participants.find? (fun p => p.id == token_data.participant_id) with
      | none =>
          (.storageError,
           { s1 with attendanceLog := s1.attendanceLog ++ [checkin_log_data token_data req clock] })
      | some participant_data =>
          (.succeeded participant_data.name token_data.participant_id clock.local_now_str,
           { s1 with attendanceLog := s1.attendanceLog ++ [checkin_log_data token_data req clock] })

/-! ### Library helpers about `find?`, `eraseP` and `countP` -/

theorem countP_eraseP_eq_zero {α} (p : α → Bool) :
    ∀ l : List α, l.countP p ≤ 1 → (l.eraseP p).countP p = 0 := by
  intro l
  induction l with
  | nil => intro _; simp
  | cons a l ih =>
    intro h
    by_cases hpa : p a
    · rw [List.eraseP_cons_of_pos hpa]
      rw [List.countP_cons_of_pos _ _ hpa] at h
      omega
    · rw [List.eraseP_cons_of_neg hpa, List.countP_cons_of_neg _ _ hpa]
      rw [List.countP_cons_of_neg _ _ hpa] at h
      exact ih h

theorem find?_eraseP_eq_none {α} (p : α → Bool) (l : List α)
    (h : l.countP p ≤ 1) : (l.eraseP p).find? p = none := by
  rw [List.find?_eq_none]
  intro x hx
  exact (List.countP_eq_zero.mp (countP_eraseP_eq_zero p l h)) x hx

/-! ### Inversion and evaluation lemmas for `consume_qr_token` -/

theorem consume_err_eq (s : SheetsState) (t : String) :
    consume_qr_token s t true = (none, s) := rfl

theorem consume_find_none_eq {s : SheetsState} {t : String}
    (h : s.qrTokens.find? (fun r => r.token_uuid == t) = none) :
    consume_qr_token s t false = (none, s) := by
  simp [consume_qr_token, h]

theorem consume_find_some_eq {s : SheetsState} {t : String} {tk : QrToken}
    (h : s.qrTokens.find? (fun r => r.token_uuid == t) = some tk) :
    consume_qr_token s t false =
      (some tk, { s with qrTokens := s.qrTokens.eraseP (fun r => r.token_uuid == t) }) := by
  simp [consume_qr_token, h]

theorem consume_none_inv {s s' : SheetsState} {t : String} {err : Bool}
    (h : consume_qr_token s t err = (none, s')) : s' = s := by
  cases err with
  | true =>
    rw [consume_err_eq] at h
    exact (Prod.ext_iff.mp h).2.symm
  | false =>
    cases hfind : s.qrTokens.find? (fun r => r.token_uuid == t) with
    | none =>
      rw [consume_find_none_eq hfind] at h
      exact (Prod.ext_iff.mp h).2.symm
    | some tk =>
      rw [consume_find_some_eq hfind] at h
      exact absurd (Prod.ext_iff.mp h).1 (by simp)

theorem consume_some_inv {s s' : SheetsState} {t : String} {err : Bool}
    {tk : QrToken} (h : consume_qr_token s t err = (some tk, s')) :
    err = false ∧
    s.qrTokens.find? (fun r => r.token_uuid == t) = some tk ∧
    s' = { s with qrTokens := s.qrTokens.eraseP (fun r => r.token_uuid == t) } := by
  cases err with
  | true =>
    rw [consume_err_eq] at h
    exact absurd (Prod.ext_iff.mp h).1 (by simp)
  | false =>
    cases hfind : s.qrTokens.find? (fun r => r.token_uuid == t) with
    | none =>
      rw [consume_find_none_eq hfind] at h
      exact absurd (Prod.ext_iff.mp h).1 (by simp)
    | some tk0 =>
      rw [consume_find_some_eq hfind] at h
      obtain ⟨h1, h2⟩ := Prod.ext_iff.mp h
      exact ⟨rfl, h1, h2.symm⟩

/-! ### Branch evaluation lemmas for `check_in` -/

theorem check_in_consume_none {s s1 : SheetsState} {req : CheckInRequest}
    {clock : Clock} {faults : StoreFaults}
    (h : consume_qr_token s req.qr_code_token faults.consumeErr = (none, s1)) :
    check_in s req clock faults = (.invalidOrUsedToken, s1) := by
  unfold check_in
  rw [h]

theorem check_in_expired_eq {s s1 : SheetsState} {req : CheckInRequest}
    {clock : Clock} {faults : StoreFaults} {tk : QrToken}
    (h : consume_qr_token s req.qr_code_token faults.consumeErr = (some tk, s1))
    (hexp : clock.now > tk.expires_at) :
    check_in s req clock faults = (.expired, s1) := by
  unfold check_in
  rw [h]
  simp [hexp]

theorem check_in_mismatch_eq {s s1 : SheetsState} {req : CheckInRequest}
    {clock : Clock} {faults : StoreFaults} {tk : QrToken}
    (h : consume_qr_token s req.qr_code_token faults.consumeErr = (some tk, s1))
    (hexp : ¬ clock.now > tk.expires_at)
    (hne : tk.agenda_item_id ≠ req.agenda_item_id) :
    check_in s req clock faults = (.agendaMismatch, s1) := by
  unfold check_in
  rw [h]
  simp [hexp, hne]

theorem check_in_duplicate_eq {s s1 : SheetsState} {req : CheckInRequest}
    {clock : Clock} {faults : StoreFaults} {tk : QrToken}
    (h : consume_qr_token s req.qr_code_token faults.consumeErr = (some tk, s1))
    (hexp : ¬ clock.now > tk.expires_at)
    (hag : tk.agenda_item_id = req.agenda_item_id)
    (hdup : is_already_checked_in s1.attendanceLog tk.participant_id
      tk.agenda_item_id = true) :
    check_in s req clock faults = (.duplicateCheckIn, s1) := by
  unfold check_in
  rw [h]
  rw [hag] at hdup
  simp [hexp, hag, hdup]

theorem check_in_append_fail_eq {s s1 : SheetsState} {req : CheckInRequest}
    {clock : Clock} {faults : StoreFaults} {tk : QrToken}
    (h : consume_qr_token s req.qr_code_token faults.consumeErr = (some tk, s1))
    (hexp : ¬ clock.now > tk.expires_at)
    (hag : tk.agenda_item_id = req.agenda_item_id)
    (hdup : is_already_checked_in s1.attendanceLog tk.participant_id
      tk.agenda_item_id = false)
    (happ : faults.appendErr = true) :
    check_in s req clock faults = (.storageError, s1) := by
  unfold check_in
  rw [h]
  rw [hag] at hdup
  simp [hexp, hag, hdup, happ]

theorem check_in_success_eq {s s1 : SheetsState} {req : CheckInRequest}
    {clock : Clock} {faults : StoreFaults} {tk : QrToken} {pd : Participant}
    (h : consume_qr_token s req.qr_code_token faults.consumeErr = (some tk, s1))
    (hexp : ¬ clock.now > tk.expires_at)
    (hag : tk.agenda_item_id = req.agenda_item_id)
    (hdup : is_already_checked_in s1.attendanceLog tk.participant_id
      tk.agenda_item_id = false)
    (happ : faults.appendErr = false)
    (hp : s1.participants.find? (fun p => p.id == tk.participant_id) = some pd) :
    check_in s req clock faults =
      (.succeeded pd.name tk.participant_id clock.local_now_str,
       { s1 with attendanceLog := s1.attendanceLog ++ [checkin_log_data tk req clock] }) := by
  unfold check_in
  rw [h]
  rw [hag] at hdup
  simp [hexp, hag, hdup, happ, hp, checkin_log_data]

/-- Full inversion of a successful `check_in`: every HTTP-200 response
means the token was found and erased, was unexpired, matched the claimed
agenda id, had no matching ledger record, the append succeeded, and the
participant row supplied the name; the final state carries exactly the
token erasure and the one appended ledger row. -/
theorem check_in_succeeded_inv {s s2 : SheetsState} {req : CheckInRequest}
    {clock : Clock} {faults : StoreFaults} {n pid t : String}
    (h : check_in s req clock faults = (.succeeded n pid t, s2)) :
    ∃ tk pd,
      faults.consumeErr = false ∧ faults.appendErr = false ∧
      s.qrTokens.find? (fun r => r.token_uuid == req.qr_code_token) = some tk ∧
      ¬ clock.now > tk.expires_at ∧
      tk.agenda_item_id = req.agenda_item_id ∧
      is_already_checked_in s.attendanceLog tk.participant_id tk.agenda_item_id = false ∧
      s.participants.find? (fun p => p.id == tk.participant_id) = some pd ∧
      n = pd.name ∧ pid = tk.participant_id ∧ t = clock.local_now_str ∧
      s2 = { s with
        qrTokens := s.qrTokens.eraseP (fun r => r.token_uuid == req.qr_code_token),
        attendanceLog := s.attendanceLog ++ [checkin_log_data tk req clock] } := by
  unfold check_in at h
  rcases hc : consume_qr_token s req.qr_code_token faults.consumeErr with ⟨otk, s1⟩
  rw [hc] at h
  cases otk with
  | none => simp at h
  | some tk =>
    obtain ⟨herr, hfind, hs1⟩ := consume_some_inv hc
    subst hs1
    dsimp only at h
    by_cases hexp : clock.now > tk.expires_at
    · rw [if_pos hexp] at h
      simp at h
    · rw [if_neg hexp] at h
      by_cases hag : tk.agenda_item_id = req.agenda_item_id
      · rw [if_neg (by simp [hag])] at h
        by_cases hdup :
            is_already_checked_in s.attendanceLog tk.participant_id tk.agenda_item_id
        · rw [if_pos hdup] at h
          simp at h
        · rw [if_neg hdup] at h
          by_cases happ : faults.appendErr = true
          · rw [if_pos happ] at h
            simp at h
          · rw [if_neg happ] at h
            rcases hp : s.participants.find? (fun p => p.id == tk.participant_id) with _ | pd
            · rw [hp] at h
              simp at h
            · rw [hp] at h
              simp only [Prod.mk.injEq, CheckInOutcome.succeeded.injEq] at h
              obtain ⟨⟨hn, hpid, ht⟩, hst⟩ := h
              exact ⟨tk, pd, herr, Bool.eq_false_iff.mpr happ, hfind, hexp, hag,
                Bool.eq_false_iff.mpr hdup, hp, hn.symm, hpid.symm, ht.symm, hst.symm⟩
      · rw [if_pos (by simpa using hag)] at h
        simp at h

/-- Forward lemma for the branch where every check passes but the
display-name lookup finds no participant row: `participant_data` is `None`
and `participant_data.get` raises, surfacing as HTTP 500; the ledger row
was already appended. -/
theorem check_in_name_lookup_fail_eq {s s1 : SheetsState} {req : CheckInRequest}
    {clock : Clock} {faults : StoreFaults} {tk : QrToken}
    (h : consume_qr_token s req.qr_code_token faults.consumeErr = (some tk, s1))
    (hexp : ¬ clock.now > tk.expires_at)
    (hag : tk.agenda_item_id = req.agenda_item_id)
    (hdup : is_already_checked_in s1.attendanceLog tk.participant_id
      tk.agenda_item_id = false)
    (happ : faults.appendErr = false)
    (hp : s1.participants.find? (fun p => p.id == tk.participant_id) = none) :
    check_in s req clock faults =
      (.storageError,
       { s1 with attendanceLog := s1.attendanceLog ++ [checkin_log_data tk req clock] }) := by
  unfold check_in
  rw [h]
  rw [hag] at hdup
  simp [hexp, hag, hdup, happ, hp, checkin_log_data]

/-- The state right after `consume_qr_token` has found and deleted the row
of `req.qr_code_token`: only the `Qr_Tokens` sheet changes. -/
def consumedState (s : SheetsState) (req : CheckInRequest) : SheetsState :=
  { s with qrTokens := s.qrTokens.eraseP (fun r => r.token_uuid == req.qr_code_token) }

/-! ### Concrete fixtures used by witnesses and counterexamples.
They mirror the seed data of `SheetsManager.initialize_system`. -/

def participantP001 : Participant :=
  { id := "P001", name := "王小明", email := "ming@test.com"
    phone_number := "0910123456", organization := "科技學院", login_hash := "hash1" }

def agendaA101 : AgendaItem :=
  { id := "A101", event_id := "E001", agenda_title := "開幕式與專題演講"
    start_time := "2026-01-10T09:00:00+08:00", end_time := "2026-01-10T10:30:00+08:00"
    location := "國際廳", checkin_window_minutes := "30" }

/-- A token issued for (P001, A101), expiring at unix time 100. -/
def tokenT1 : QrToken :=
  { token_uuid := "uuid-1", participant_id := "P001", agenda_item_id := "A101"
    device_id := "dev-1", expires_at := 100 }

/-- A second token for the same (P001, A101) pair, expiring at 110. -/
def tokenT2 : QrToken :=
  { token_uuid := "uuid-2", participant_id := "P001", agenda_item_id := "A101"
    device_id := "dev-1", expires_at := 110 }

def reqT1 : CheckInRequest :=
  { qr_code_token := "uuid-1", agenda_item_id := "A101", scanner_device_id := "scan-1" }

def reqT2 : CheckInRequest :=
  { qr_code_token := "uuid-2", agenda_item_id := "A101", scanner_device_id := "scan-1" }

def clockT1 : Clock :=
  { now := 95, new_record_id := "rec-1"
    utc_now_iso := "2026-01-10T09:00:05+00:00", local_now_str := "2026-01-10 17:00:05" }

def clockT2 : Clock :=
  { now := 96, new_record_id := "rec-2"
    utc_now_iso := "2026-01-10T09:00:06+00:00", local_now_str := "2026-01-10 17:00:06" }

/-- A clock whose `time.time()` read equals `tokenT1.expires_at` exactly. -/
def clockAtExpiry : Clock :=
  { now := 100, new_record_id := "rec-e"
    utc_now_iso := "2026-01-10T09:00:10+00:00", local_now_str := "2026-01-10 17:00:10" }

/-- A clock strictly past `tokenT1.expires_at`. -/
def clockLate : Clock :=
  { now := 120, new_record_id := "rec-l"
    utc_now_iso := "2026-01-10T09:00:30+00:00", local_now_str := "2026-01-10 17:00:30" }

/-- Store with seed identities, an empty ledger and the single live token `tokenT1`. -/
def stateA : SheetsState :=
  { participants := [participantP001], agendaItems := [agendaA101]
    attendanceLog := [], qrTokens := [tokenT1] }

/-- `stateA` after a successful redeem of `tokenT1` under `clockT1`. -/
def stateA1 : SheetsState :=
  { participants := [participantP001], agendaItems := [agendaA101]
    attendanceLog := [checkin_log_data tokenT1 reqT1 clockT1], qrTokens := [] }

/-- `stateA` with the token burned and nothing recorded. -/
def stateABurned : SheetsState :=
  { participants := [participantP001], agendaItems := [agendaA101]
    attendanceLog := [], qrTokens := [] }

/-- Store with two live tokens for the same (P001, A101) pair. -/
def stateAB : SheetsState :=
  { participants := [participantP001], agendaItems := [agendaA101]
    attendanceLog := [], qrTokens := [tokenT1, tokenT2] }

/-- `stateAB` after redeeming `tokenT1` under `clockT1`. -/
def stateAB1 : SheetsState :=
  { participants := [participantP001], agendaItems := [agendaA101]
    attendanceLog := [checkin_log_data tokenT1 reqT1 clockT1], qrTokens := [tokenT2] }

/-- `stateAB1` after the second redeem burned `tokenT2` and was rejected
as a duplicate. -/
def stateAB2 : SheetsState :=
  { participants := [participantP001], agendaItems := [agendaA101]
    attendanceLog := [checkin_log_data tokenT1 reqT1 clockT1], qrTokens := [] }

/-- A ledger record for (P001, A101) whose `is_valid` is `"FALSE"`. -/
def recInvalid : AttendanceRecord :=
  { id := "r0", participant_id := "P001", agenda_item_id := "A101"
    checkin_time := "2026-01-09T00:00:00+00:00", checkin_method := "QR_CODE"
    scanner_device_id := "scan-0", is_valid := "FALSE" }

/-- Store whose only ledger record for (P001, A101) is invalid
(`is_valid = "FALSE"`), with `tokenT1` live. -/
def stateInv : SheetsState :=
  { participants := [participantP001], agendaItems := [agendaA101]
    attendanceLog := [recInvalid], qrTokens := [tokenT1] }

/-! ### Claims -/

/-- C1 — Sequential single-use: any redeem that returns HTTP 200 has
deleted the token's `Qr_Tokens` row (provided the uuid occurred in at most
one row, as holds for `uuid.uuid4()`-issued tokens), so any later redeem
presenting the same `qr_code_token` — whatever its clock, scanner fields
or injected faults — fails with `invalidOrUsedToken` and leaves the store,
in particular the attendance ledger, untouched. -/
theorem c1_single_use {s s2 : SheetsState} {req : CheckInRequest}
    {clock : Clock} {faults : StoreFaults} {n pid t : String}
    (huniq : s.qrTokens.countP (fun r => r.token_uuid == req.qr_code_token) ≤ 1)
    (h : check_in s req clock faults = (.succeeded n pid t, s2)) :
    s2.qrTokens.find? (fun r => r.token_uuid == req.qr_code_token) = none ∧
    ∀ (req' : CheckInRequest) (clock' : Clock) (faults' : StoreFaults),
      req'.qr_code_token = req.qr_code_token →
      check_in s2 req' clock' faults' = (.invalidOrUsedToken, s2) := by
  obtain ⟨tk, pd, _, _, hfind, _, _, _, _, _, _, _, hs2⟩ := check_in_succeeded_inv h
  have hnone : s2.qrTokens.find? (fun r => r.token_uuid == req.qr_code_token) = none := by
    rw [hs2]
    exact find?_eraseP_eq_none _ _ huniq
  refine ⟨hnone, ?_⟩
  intro req' clock' faults' htok
  cases hce : faults'.consumeErr with
  | true =>
    have hc : consume_qr_token s2 req'.qr_code_token faults'.consumeErr = (none, s2) := by
      rw [hce]
      exact consume_err_eq s2 req'.qr_code_token
    exact check_in_consume_none hc
  | false =>
    have hnone' : s2.qrTokens.find? (fun r => r.token_uuid == req'.qr_code_token) = none := by
      rw [htok]
      exact hnone
    have hc : consume_qr_token s2 req'.qr_code_token faults'.consumeErr = (none, s2) := by
      rw [hce]
      exact consume_find_none_eq hnone'
    exact check_in_consume_none hc

/-- Witness for C1: in `stateA` the uuid occurs once; after the successful
redeem (`stateA1`) an immediate re-redeem of the same token fails with
`invalidOrUsedToken` and changes nothing. -/
theorem c1_single_use_witness :
    stateA.qrTokens.countP (fun r => r.token_uuid == reqT1.qr_code_token) ≤ 1 ∧
    check_in stateA1 reqT1 clockT2 noFaults = (.invalidOrUsedToken, stateA1) :=
  ⟨by decide,
   (c1_single_use
      (by decide :
        stateA.qrTokens.countP (fun r => r.token_uuid == reqT1.qr_code_token) ≤ 1)
      (by decide :
        check_in stateA reqT1 clockT1 noFaults
          = (.succeeded "王小明" "P001" "2026-01-10 17:00:05", stateA1))).2
     reqT1 clockT2 noFaults rfl⟩

/-- C2, counterexample: a redeem at `now` exactly equal to `expires_at`
(so `now ≥ expires_at`) does not fail with `Expired` — it succeeds,
because main.py line 250 compares with strict `>`. -/
theorem c2_expiry_cex :
    tokenT1.expires_at ≤ clockAtExpiry.now ∧
    (check_in stateA reqT1 clockAtExpiry noFaults).1
      = .succeeded "王小明" "P001" clockAtExpiry.local_now_str := by decide

/-- C2, amended — Expiry enforcement with strict inequality: whenever
consume finds the token and `now > expires_at` (strictly), redeem fails
with `Expired` and never succeeds, yet the token's row has been deleted
from the store as a side effect of the attempt; no ledger row is written. -/
theorem c2_expired_burns_token {s : SheetsState} {req : CheckInRequest}
    {clock : Clock} {faults : StoreFaults} {tk : QrToken}
    (herr : faults.consumeErr = false)
    (hfind : s.qrTokens.find? (fun r => r.token_uuid == req.qr_code_token) = some tk)
    (hexp : clock.now > tk.expires_at) :
    check_in s req clock faults = (.expired, consumedState s req) := by
  have hc : consume_qr_token s req.qr_code_token faults.consumeErr
      = (some tk, consumedState s req) := by
    rw [herr]
    exact consume_find_some_eq hfind
  exact check_in_expired_eq hc hexp

/-- Witness for the amended C2: redeeming `tokenT1` at time 120 (past its
expiry 100) yields `expired`, with the token row deleted and the ledger
still empty. -/
theorem c2_expired_burns_token_witness :
    noFaults.consumeErr = false ∧
    stateA.qrTokens.find? (fun r => r.token_uuid == reqT1.qr_code_token) = some tokenT1 ∧
    clockLate.now > tokenT1.expires_at ∧
    check_in stateA reqT1 clockLate noFaults = (.expired, consumedState stateA reqT1) :=
  ⟨rfl, by decide, by decide,
   c2_expired_burns_token rfl
     (by decide :
       stateA.qrTokens.find? (fun r => r.token_uuid == reqT1.qr_code_token) = some tokenT1)
     (by decide : clockLate.now > tokenT1.expires_at)⟩

/-- The ledger invariant of the spec's data model: for any
(participant, agenda item) pair, at most one `Attendance_Log` record with
`is_valid = "TRUE"` exists. -/
def ValidOnce (log : List AttendanceRecord) : Prop :=
  ∀ p a : String,
    log.countP
      (fun r => r.participant_id == p && r.agenda_item_id == a && r.is_valid == "TRUE") ≤ 1

/-- `generate_qr_token` never touches the `Attendance_Log` sheet. -/
theorem generate_qr_token_attendanceLog (s : SheetsState) (req : TokenRequest)
    (now : Int) (u : String) (e : Bool) :
    (generate_qr_token s req now u e).2.attendanceLog = s.attendanceLog := by
  unfold generate_qr_token
  cases s.participants.find? (fun p => p.id == req.participant_id) with
  | none => rfl
  | some p =>
    cases s.agendaItems.find? (fun a => a.id == req.agenda_item_id) with
    | none => rfl
    | some a =>
      cases e with
      | true => rfl
      | false => rfl

/-- Case analysis of the ledger after one `check_in` call: either it is
unchanged, or (exactly when no existing record matched the token's pair)
one row for that pair was appended. -/
theorem check_in_attendanceLog_cases (s : SheetsState) (req : CheckInRequest)
    (clock : Clock) (faults : StoreFaults) :
    (check_in s req clock faults).2.attendanceLog = s.attendanceLog ∨
    ∃ tk : QrToken,
      is_already_checked_in s.attendanceLog tk.participant_id tk.agenda_item_id = false ∧
      tk.agenda_item_id = req.agenda_item_id ∧
      (check_in s req clock faults).2.attendanceLog
        = s.attendanceLog ++ [checkin_log_data tk req clock] := by
  rcases hc : consume_qr_token s req.qr_code_token faults.consumeErr with ⟨otk, s1⟩
  cases otk with
  | none =>
    left
    rw [check_in_consume_none hc, consume_none_inv hc]
  | some tk =>
    obtain ⟨herr, hfind, hs1⟩ := consume_some_inv hc
    subst hs1
    by_cases hexp : clock.now > tk.expires_at
    · left
      rw [check_in_expired_eq hc hexp]
    · by_cases hag : tk.agenda_item_id = req.agenda_item_id
      · by_cases hdup : is_already_checked_in s.attendanceLog tk.participant_id
            tk.agenda_item_id = true
        · left
          rw [check_in_duplicate_eq hc hexp hag hdup]
        · by_cases happ : faults.appendErr = true
          · left
            rw [check_in_append_fail_eq hc hexp hag (Bool.eq_false_iff.mpr hdup) happ]
          · right
            refine ⟨tk, Bool.eq_false_iff.mpr hdup, hag, ?_⟩
            rcases hp : s.participants.find? (fun p => p.id == tk.participant_id) with _ | pd
            · rw [check_in_name_lookup_fail_eq hc hexp hag (Bool.eq_false_iff.mpr hdup)
                (Bool.eq_false_iff.mpr happ) hp]
            · rw [check_in_success_eq hc hexp hag (Bool.eq_false_iff.mpr hdup)
                (Bool.eq_false_iff.mpr happ) hp]
      · left
        rw [check_in_mismatch_eq hc hexp hag]

/-- Appending a record for a pair that has no matching ledger record at
all (valid or not) preserves the at-most-one-valid-record invariant. -/
theorem valid_once_append {log : List AttendanceRecord} {rec : AttendanceRecord}
    (hv : ValidOnce log)
    (hnodup : log.any (fun r => r.participant_id == rec.participant_id &&
      r.agenda_item_id == rec.agenda_item_id) = false) :
    ValidOnce (log ++ [rec]) := by
  intro p a
  rw [List.countP_append]
  by_cases hm : (rec.participant_id == p && rec.agenda_item_id == a &&
      rec.is_valid == "TRUE") = true
  · obtain ⟨hab, _⟩ := Bool.and_eq_true_iff.mp hm
    obtain ⟨hpp, haa⟩ := Bool.and_eq_true_iff.mp hab
    have hp : rec.participant_id = p := eq_of_beq hpp
    have ha : rec.agenda_item_id = a := eq_of_beq haa
    have h0 : log.countP
        (fun r => r.participant_id == p && r.agenda_item_id == a &&
          r.is_valid == "TRUE") = 0 := by
      rw [List.countP_eq_zero]
      intro r hr
      have hno := List.any_eq_false.mp hnodup r hr
      intro hcontra
      obtain ⟨hab2, _⟩ := Bool.and_eq_true_iff.mp hcontra
      obtain ⟨hp2, ha2⟩ := Bool.and_eq_true_iff.mp hab2
      apply hno
      rw [Bool.and_eq_true_iff]
      constructor
      · rw [beq_iff_eq, eq_of_beq hp2, hp]
      · rw [beq_iff_eq, eq_of_beq ha2, ha]
    rw [h0]
    simp [List.countP_cons, hm]
  · have h1 : ([rec]).countP
        (fun r => r.participant_id == p && r.agenda_item_id == a &&
          r.is_valid == "TRUE") = 0 := by
      simp only [List.countP_cons, List.countP_nil]
      simp [hm]
    rw [h1, Nat.add_zero]
    exact hv p a

/-- C3 — No-double-attendance invariant: both core operations preserve
"at most one `is_valid = "TRUE"` record per (participant, agenda) pair"
(redeem appends only when no record for the pair exists at all, which is
stronger), and redeeming two valid, unexpired tokens for the same pair
sequentially yields one `succeeded` and one `duplicateCheckIn`. -/
theorem c3_no_double_attendance :
    (∀ (s : SheetsState) (req : TokenRequest) (now : Int) (u : String) (e : Bool),
       ValidOnce s.attendanceLog →
       ValidOnce (generate_qr_token s req now u e).2.attendanceLog) ∧
    (∀ (s : SheetsState) (req : CheckInRequest) (clock : Clock) (faults : StoreFaults),
       ValidOnce s.attendanceLog →
       ValidOnce (check_in s req clock faults).2.attendanceLog) ∧
    (check_in stateAB reqT1 clockT1 noFaults
        = (.succeeded "王小明" "P001" "2026-01-10 17:00:05", stateAB1) ∧
     check_in stateAB1 reqT2 clockT2 noFaults = (.duplicateCheckIn, stateAB2)) := by
  refine ⟨?_, ?_, by decide, by decide⟩
  · intro s req now u e hv
    rw [generate_qr_token_attendanceLog]
    exact hv
  · intro s req clock faults hv
    rcases check_in_attendanceLog_cases s req clock faults with hlog | ⟨tk, hnodup, hag, hlog⟩
    · rw [hlog]
      exact hv
    · rw [hlog]
      rw [hag] at hnodup
      exact valid_once_append hv hnodup

/-- Witness for C3: the invariant holds of the empty ledger in `stateAB`
and is preserved by the redeem that takes `stateAB` to `stateAB1`. -/
theorem c3_no_double_attendance_witness :
    ValidOnce stateAB.attendanceLog ∧
    ValidOnce (check_in stateAB reqT1 clockT1 noFaults).2.attendanceLog :=
  ⟨by intro p a; simp [stateAB],
   c3_no_double_attendance.2.1 stateAB reqT1 clockT1 noFaults
     (by intro p a; simp [stateAB])⟩

/-- The duplicate scan is exactly "some record matches the pair",
with no condition on `is_valid`. -/
theorem is_already_checked_in_iff (log : List AttendanceRecord) (p a : String) :
    is_already_checked_in log p a = true ↔
      ∃ r ∈ log, r.participant_id = p ∧ r.agenda_item_id = a := by
  simp [is_already_checked_in]

/-- C4, counterexample: in a store whose only ledger record for
(P001, A101) has `is_valid = "FALSE"`, redeeming a fresh valid token for
that pair still fails with `duplicateCheckIn`, contradicting the claim
that records with `valid = false` do not trigger it. -/
theorem c4_duplicate_cex :
    stateInv.attendanceLog = [recInvalid] ∧
    recInvalid.is_valid = "FALSE" ∧
    (check_in stateInv reqT1 clockT1 noFaults).1 = .duplicateCheckIn := by decide

/-- C4, amended — Duplicate detection predicate: the duplicate step
reports a duplicate (and redeem fails with `duplicateCheckIn`) iff the
ledger contains a record whose `participant_id` and `agenda_item_id`
match the token's, regardless of the record's `is_valid` flag. -/
theorem c4_duplicate_predicate :
    (∀ (log : List AttendanceRecord) (p a : String),
       is_already_checked_in log p a = true ↔
         ∃ r ∈ log, r.participant_id = p ∧ r.agenda_item_id = a) ∧
    (∀ (s : SheetsState) (req : CheckInRequest) (clock : Clock)
       (faults : StoreFaults) (tk : QrToken),
       faults.consumeErr = false →
       s.qrTokens.find? (fun r => r.token_uuid == req.qr_code_token) = some tk →
       ¬ clock.now > tk.expires_at →
       tk.agenda_item_id = req.agenda_item_id →
       ((check_in s req clock faults).1 = .duplicateCheckIn ↔
         ∃ r ∈ s.attendanceLog, r.participant_id = tk.participant_id ∧
           r.agenda_item_id = tk.agenda_item_id)) := by
  refine ⟨is_already_checked_in_iff, ?_⟩
  intro s req clock faults tk herr hfind hexp hag
  have hc : consume_qr_token s req.qr_code_token faults.consumeErr
      = (some tk, consumedState s req) := by
    rw [herr]
    exact consume_find_some_eq hfind
  by_cases hdup : is_already_checked_in s.attendanceLog tk.participant_id
      tk.agenda_item_id = true
  · constructor
    · intro _
      exact (is_already_checked_in_iff s.attendanceLog tk.participant_id
        tk.agenda_item_id).mp hdup
    · intro _
      rw [check_in_duplicate_eq hc hexp hag hdup]
  · have hdupf := Bool.eq_false_iff.mpr hdup
    constructor
    · intro hout
      cases happ : faults.appendErr with
      | true =>
        rw [check_in_append_fail_eq hc hexp hag hdupf happ] at hout
        simp at hout
      | false =>
        rcases hp : s.participants.find? (fun p => p.id == tk.participant_id) with _ | pd
        · rw [check_in_name_lookup_fail_eq hc hexp hag hdupf happ hp] at hout
          simp at hout
        · rw [check_in_success_eq hc hexp hag hdupf happ hp] at hout
          simp at hout
    · intro hex
      exact absurd ((is_already_checked_in_iff s.attendanceLog tk.participant_id
        tk.agenda_item_id).mpr hex) hdup

/-- Witness for the amended C4: `stateInv`'s invalid record still makes
the redeem fail with `duplicateCheckIn`, via the right-to-left direction. -/
theorem c4_duplicate_predicate_witness :
    noFaults.consumeErr = false ∧
    (check_in stateInv reqT1 clockT1 noFaults).1 = .duplicateCheckIn :=
  ⟨rfl,
   (c4_duplicate_predicate.2 stateInv reqT1 clockT1 noFaults tokenT1 rfl
      (by decide :
        stateInv.qrTokens.find? (fun r => r.token_uuid == reqT1.qr_code_token)
          = some tokenT1)
      (by decide : ¬ clockT1.now > tokenT1.expires_at)
      (by decide : tokenT1.agenda_item_id = reqT1.agenda_item_id)).mpr
     ⟨recInvalid, by decide, by decide, by decide⟩⟩

/-- C5 — Step ordering of redeem: with no exception injected into consume,
either the token row is absent and the call fails `invalidOrUsedToken`
with the whole store unchanged, or the row is found and deleted, after
which the expiry check, the agenda-id check and the duplicate check fire
in that order, each failure terminal with exactly that outcome and with
the attendance ledger untouched (`consumedState` changes only
`Qr_Tokens`); only when all checks pass is the ledger row appended. -/
theorem c5_step_ordering (s : SheetsState) (req : CheckInRequest)
    (clock : Clock) (faults : StoreFaults)
    (herr : faults.consumeErr = false) :
    (consumedState s req).attendanceLog = s.attendanceLog ∧
    (s.qrTokens.find? (fun r => r.token_uuid == req.qr_code_token) = none →
       check_in s req clock faults = (.invalidOrUsedToken, s)) ∧
    (∀ tk : QrToken,
       s.qrTokens.find? (fun r => r.token_uuid == req.qr_code_token) = some tk →
       (clock.now > tk.expires_at →
          check_in s req clock faults = (.expired, consumedState s req)) ∧
       (¬ clock.now > tk.expires_at → tk.agenda_item_id ≠ req.agenda_item_id →
          check_in s req clock faults = (.agendaMismatch, consumedState s req)) ∧
       (¬ clock.now > tk.expires_at → tk.agenda_item_id = req.agenda_item_id →
          is_already_checked_in s.attendanceLog tk.participant_id
            tk.agenda_item_id = true →
          check_in s req clock faults = (.duplicateCheckIn, consumedState s req)) ∧
       (¬ clock.now > tk.expires_at → tk.agenda_item_id = req.agenda_item_id →
          is_already_checked_in s.attendanceLog tk.participant_id
            tk.agenda_item_id = false →
          faults.appendErr = true →
          check_in s req clock faults = (.storageError, consumedState s req)) ∧
       (¬ clock.now > tk.expires_at → tk.agenda_item_id = req.agenda_item_id →
          is_already_checked_in s.attendanceLog tk.participant_id
            tk.agenda_item_id = false →
          faults.appendErr = false →
          (check_in s req clock faults).2.attendanceLog
            = s.attendanceLog ++ [checkin_log_data tk req clock] ∧
          (check_in s req clock faults).2.qrTokens = (consumedState s req).qrTokens)) := by
  refine ⟨rfl, ?_, ?_⟩
  · intro hfind
    have hc : consume_qr_token s req.qr_code_token faults.consumeErr = (none, s) := by
      rw [herr]
      exact consume_find_none_eq hfind
    exact check_in_consume_none hc
  · intro tk hfind
    have hc : consume_qr_token s req.qr_code_token faults.consumeErr
        = (some tk, consumedState s req) := by
      rw [herr]
      exact consume_find_some_eq hfind
    refine ⟨fun hexp => check_in_expired_eq hc hexp,
      fun hexp hne => check_in_mismatch_eq hc hexp hne,
      fun hexp hag hdup => check_in_duplicate_eq hc hexp hag hdup,
      fun hexp hag hdup happ => check_in_append_fail_eq hc hexp hag hdup happ,
      fun hexp hag hdup happ => ?_⟩
    rcases hp : s.participants.find? (fun p => p.id == tk.participant_id) with _ | pd
    · rw [check_in_name_lookup_fail_eq hc hexp hag hdup happ hp]
      exact ⟨rfl, rfl⟩
    · rw [check_in_success_eq hc hexp hag hdup happ hp]
      exact ⟨rfl, rfl⟩

/-- Witness for C5: the invalid-token, expired and duplicate branches at
concrete inputs. -/
theorem c5_step_ordering_witness :
    check_in stateABurned reqT1 clockT1 noFaults = (.invalidOrUsedToken, stateABurned) ∧
    check_in stateA reqT1 clockLate noFaults = (.expired, consumedState stateA reqT1) ∧
    check_in stateInv reqT1 clockT1 noFaults
      = (.duplicateCheckIn, consumedState stateInv reqT1) :=
  ⟨(c5_step_ordering stateABurned reqT1 clockT1 noFaults rfl).2.1
     (by decide :
       stateABurned.qrTokens.find? (fun r => r.token_uuid == reqT1.qr_code_token) = none),
   ((c5_step_ordering stateA reqT1 clockLate noFaults rfl).2.2 tokenT1
      (by decide :
        stateA.qrTokens.find? (fun r => r.token_uuid == reqT1.qr_code_token)
          = some tokenT1)).1
     (by decide : clockLate.now > tokenT1.expires_at),
   (((c5_step_ordering stateInv reqT1 clockT1 noFaults rfl).2.2 tokenT1
      (by decide :
        stateInv.qrTokens.find? (fun r => r.token_uuid == reqT1.qr_code_token)
          = some tokenT1)).2.2.1
     (by decide : ¬ clockT1.now > tokenT1.expires_at)
     (by decide : tokenT1.agenda_item_id = reqT1.agenda_item_id)
     (by decide :
       is_already_checked_in stateInv.attendanceLog tokenT1.participant_id
         tokenT1.agenda_item_id = true))⟩

/-- A well-formed issuance request for (P001, A101). -/
def issueReq : TokenRequest :=
  { participant_id := "P001", agenda_item_id := "A101", device_id := "dev-9" }

/-- An issuance request naming a participant id that does not exist. -/
def badIssueReq : TokenRequest :=
  { participant_id := "P999", agenda_item_id := "A101", device_id := "dev-9" }

/-- The token `generate_qr_token stateA issueReq 50 "uuid-9" false` persists. -/
def tokenIssued : QrToken :=
  { token_uuid := "uuid-9", participant_id := "P001", agenda_item_id := "A101"
    device_id := "dev-9", expires_at := 65 }

/-- `stateA` after that successful issuance. -/
def stateAIssued : SheetsState :=
  { participants := [participantP001], agendaItems := [agendaA101]
    attendanceLog := [], qrTokens := [tokenT1, tokenIssued] }

/-- Faults that make the `Attendance_Log` append raise. -/
def faultsAppend : StoreFaults := { consumeErr := false, appendErr := true }

/-- C6 — Issue rejects unknown identities atomically: an unresolved
participant id or agenda item id makes `generate_qr_token` answer 404
(`participantNotFound` / `agendaNotFound`) with the store unchanged —
no token row is created; when both ids resolve (and the append does not
raise), the returned uuid is persisted with
`expires_at = now + QR_CODE_EXP_SECONDS`, the TTL being fixed at 15
seconds, before the token is returned. -/
theorem c6_issue_unknown_identities (s : SheetsState) (req : TokenRequest)
    (now : Int) (new_uuid : String) (appendErr : Bool) :
    QR_CODE_EXP_SECONDS = 15 ∧
    (s.participants.find? (fun p => p.id == req.participant_id) = none →
       generate_qr_token s req now new_uuid appendErr = (.participantNotFound, s)) ∧
    (s.agendaItems.find? (fun a => a.id == req.agenda_item_id) = none →
       generate_qr_token s req now new_uuid appendErr = (.participantNotFound, s) ∨
       generate_qr_token s req now new_uuid appendErr = (.agendaNotFound, s)) ∧
    (∀ (p : Participant) (a : AgendaItem),
       s.participants.find? (fun p0 => p0.id == req.participant_id) = some p →
       s.agendaItems.find? (fun a0 => a0.id == req.agenda_item_id) = some a →
       appendErr = false →
       generate_qr_token s req now new_uuid appendErr =
         (.issued new_uuid QR_CODE_EXP_SECONDS,
          { s with qrTokens := s.qrTokens ++
            [{ token_uuid := new_uuid, participant_id := req.participant_id
               agenda_item_id := req.agenda_item_id, device_id := req.device_id
               expires_at := now + QR_CODE_EXP_SECONDS }] })) := by
  refine ⟨rfl, ?_, ?_, ?_⟩
  · intro hp
    unfold generate_qr_token
    rw [hp]
  · intro ha
    rcases hp : s.participants.find? (fun p => p.id == req.participant_id) with _ | p
    · left
      unfold generate_qr_token
      rw [hp]
    · right
      unfold generate_qr_token
      rw [hp, ha]
  · intro p a hp ha he
    unfold generate_qr_token
    rw [hp, ha, he]
    rfl

/-- Witness for C6: an unknown participant id is rejected with no state
change, and a well-formed request persists `expires_at = 50 + 15 = 65`. -/
theorem c6_issue_unknown_identities_witness :
    stateA.participants.find? (fun p => p.id == badIssueReq.participant_id) = none ∧
    generate_qr_token stateA badIssueReq 50 "uuid-9" false = (.participantNotFound, stateA) ∧
    generate_qr_token stateA issueReq 50 "uuid-9" false
      = (.issued "uuid-9" QR_CODE_EXP_SECONDS, stateAIssued) :=
  ⟨by decide,
   (c6_issue_unknown_identities stateA badIssueReq 50 "uuid-9" false).2.1
     (by decide :
       stateA.participants.find? (fun p => p.id == badIssueReq.participant_id) = none),
   (c6_issue_unknown_identities stateA issueReq 50 "uuid-9" false).2.2.2
     participantP001 agendaA101
     (by decide :
       stateA.participants.find? (fun p0 => p0.id == issueReq.participant_id)
         = some participantP001)
     (by decide :
       stateA.agendaItems.find? (fun a0 => a0.id == issueReq.agenda_item_id)
         = some agendaA101)
     rfl⟩

/-- C7 — Storage failure after consumption: when consume found and deleted
the token, every check passed, but the `Attendance_Log` append raises, the
caller gets the terminal `storageError` outcome while the token row stays
deleted (not restored) and the ledger is unchanged. -/
theorem c7_storage_failure {s : SheetsState} {req : CheckInRequest}
    {clock : Clock} {faults : StoreFaults} {tk : QrToken}
    (herr : faults.consumeErr = false)
    (hfind : s.qrTokens.find? (fun r => r.token_uuid == req.qr_code_token) = some tk)
    (huniq : s.qrTokens.countP (fun r => r.token_uuid == req.qr_code_token) ≤ 1)
    (hexp : ¬ clock.now > tk.expires_at)
    (hag : tk.agenda_item_id = req.agenda_item_id)
    (hdup : is_already_checked_in s.attendanceLog tk.participant_id
      tk.agenda_item_id = false)
    (happ : faults.appendErr = true) :
    check_in s req clock faults = (.storageError, consumedState s req) ∧
    (consumedState s req).qrTokens.find?
      (fun r => r.token_uuid == req.qr_code_token) = none ∧
    (consumedState s req).attendanceLog = s.attendanceLog := by
  have hc : consume_qr_token s req.qr_code_token faults.consumeErr
      = (some tk, consumedState s req) := by
    rw [herr]
    exact consume_find_some_eq hfind
  exact ⟨check_in_append_fail_eq hc hexp hag hdup happ,
    find?_eraseP_eq_none _ _ huniq, rfl⟩

/-- Witness for C7: with `faultsAppend`, redeeming `tokenT1` in `stateA`
reports `storageError` and leaves the token consumed. -/
theorem c7_storage_failure_witness :
    faultsAppend.appendErr = true ∧
    check_in stateA reqT1 clockT1 faultsAppend
      = (.storageError, consumedState stateA reqT1) :=
  ⟨rfl,
   (c7_storage_failure rfl
      (by decide :
        stateA.qrTokens.find? (fun r => r.token_uuid == reqT1.qr_code_token)
          = some tokenT1)
      (by decide :
        stateA.qrTokens.countP (fun r => r.token_uuid == reqT1.qr_code_token) ≤ 1)
      (by decide : ¬ clockT1.now > tokenT1.expires_at)
      (by decide : tokenT1.agenda_item_id = reqT1.agenda_item_id)
      (by decide :
        is_already_checked_in stateA.attendanceLog tokenT1.participant_id
          tokenT1.agenda_item_id = false)
      rfl).1⟩

/-- C9 — Consume conflates store failure with a missing token: an
exception anywhere in `consume_qr_token`'s find/read/delete sequence is
swallowed by its catch-all handler into the same `None` result as an
absent row, so a redeem whose consume step hits a store failure is
reported as `invalidOrUsedToken`, never as a storage error. -/
theorem c9_consume_error_conflation (s : SheetsState) (req : CheckInRequest)
    (clock : Clock) (b : Bool) :
    consume_qr_token s req.qr_code_token true = (none, s) ∧
    check_in s req clock { consumeErr := true, appendErr := b }
      = (.invalidOrUsedToken, s) :=
  ⟨consume_err_eq s req.qr_code_token,
   check_in_consume_none (consume_err_eq s req.qr_code_token)⟩

/-- C10 — Reported check-in time differs from the recorded one: every
successful redeem stores `clock.utc_now_iso` (the UTC ISO-8601 sample) in
the appended ledger row but returns `clock.local_now_str` (the separately
sampled, differently formatted local-time string); at the concrete clock
`clockT1` the two values differ. -/
theorem c10_reported_vs_recorded_time :
    (∀ (s s2 : SheetsState) (req : CheckInRequest) (clock : Clock)
       (faults : StoreFaults) (n pid t : String),
       check_in s req clock faults = (.succeeded n pid t, s2) →
       t = clock.local_now_str ∧
       ∃ tk : QrToken,
         s2.attendanceLog = s.attendanceLog ++ [checkin_log_data tk req clock] ∧
         (checkin_log_data tk req clock).checkin_time = clock.utc_now_iso) ∧
    ((check_in stateA reqT1 clockT1 noFaults).1
        = .succeeded "王小明" "P001" clockT1.local_now_str ∧
     stateA1.attendanceLog.map (fun r => r.checkin_time) = [clockT1.utc_now_iso] ∧
     clockT1.utc_now_iso ≠ clockT1.local_now_str) := by
  constructor
  · intro s s2 req clock faults n pid t h
    obtain ⟨tk, pd, _, _, _, _, _, _, _, _, _, ht, hs2⟩ := check_in_succeeded_inv h
    refine ⟨ht, tk, ?_, rfl⟩
    rw [hs2]
  · exact ⟨by decide, by decide, by decide⟩

/-- Witness for C10: at `clockT1` the reported `checkin_time` is the
local-format sample. -/
theorem c10_reported_vs_recorded_time_witness :
    check_in stateA reqT1 clockT1 noFaults
      = (.succeeded "王小明" "P001" "2026-01-10 17:00:05", stateA1) ∧
    "2026-01-10 17:00:05" = clockT1.local_now_str :=
  ⟨by decide,
   (c10_reported_vs_recorded_time.1 stateA stateA1 reqT1 clockT1 noFaults
      "王小明" "P001" "2026-01-10 17:00:05"
      (by decide :
        check_in stateA reqT1 clockT1 noFaults
          = (.succeeded "王小明" "P001" "2026-01-10 17:00:05", stateA1))).1⟩
